import Mathlib

/-!
Verification of the layered-computation-pipeline specification of the
Deep-Learning-Specialization notebook repository.

The repository consists of three notebooks:
* `kerasTutorial_HappyHouse-checkpoint.ipynb`: builds `HappyModel`, the stage
  sequence pad(3,3) → conv(32 filters, 7×7, stride 1) → batch-norm → relu →
  maxpool(2×2) → flatten → dense(1, sigmoid) on input shape (64,64,3), then
  compiles, fits and evaluates it.
* `tensorFlowTutorial1-checkpoint.ipynb`: gradient descent with learning rate
  1/100 on the cost J(w) = w² − 10w + 25 starting from w = 0.
* `tensorFlowTutorial2-checkpoint.ipynb`: the same loop on the parameterised
  cost a·w² + b·w + c with fed coefficients a = 1, b = −20, c = 100.

The spec describes the notebooks through a minimal micro-framework (Tensor,
Stage, Pipeline, Trainer).  That framework has no implementation under the
repository sources, only its uses in the notebooks, so it is modelled here
from the spec's own words; the concrete shape and parameter-count arithmetic
is pinned by the `happyModel.summary()` output recorded in the notebook.
-/

deriving instance DecidableEq for Except

namespace DLSpec

/-- Stage kinds and configurations of the pipeline, exactly the layer stack
used by `HappyModel` in the notebook: zero-padding, 2-D convolution (filters,
kernel size, stride), batch normalization, relu activation, max pooling,
flatten, and a dense (fully connected) layer. -/
inductive StageCfg where
  | pad (p : Nat)
  | conv (filters kernel stride : Nat)
  | norm
  | relu
  | maxpool (k : Nat)
  | flatten
  | dense (units : Nat)
deriving DecidableEq, Repr

/-- Modelled from the spec: "output shape is a deterministic function of input
shape and configuration".  Shape rules are the ones recorded in the notebook's
`happyModel.summary()` output: `pad p` grows height and width by `2p`; a
`valid` convolution with kernel `k` and stride `s` maps height `h` to
`(h−k)/s + 1` and needs `k ≤ h`; batch-norm and relu preserve the shape;
max pooling with window `k` (stride = window) maps `h` to `(h−k)/k + 1`;
flatten collapses `[h,w,c]` to `[h·w·c]`; dense maps `[n]` to `[units]`.
`none` signals the `ShapeError` of an incompatible configuration. -/
def outShape : StageCfg → List Nat → Option (List Nat)
  | StageCfg.pad p, [h, w, c] => some [h + 2*p, w + 2*p, c]
  | StageCfg.conv f k s, [h, w, c] =>
      if 0 < s ∧ k ≤ h ∧ k ≤ w then some [(h - k)/s + 1, (w - k)/s + 1, f] else none
  | StageCfg.norm, [h, w, c] => some [h, w, c]
  | StageCfg.relu, sh => some sh
  | StageCfg.maxpool k, [h, w, c] =>
      if 0 < k ∧ k ≤ h ∧ k ≤ w then some [(h - k)/k + 1, (w - k)/k + 1, c] else none
  | StageCfg.flatten, [h, w, c] => some [h*w*c]
  | StageCfg.dense u, [n] => some [u]
  | _, _ => none

/-- Total (trainable plus non-trainable) parameter count of one stage given
its input shape, as recorded by `happyModel.summary()`: a convolution with
`f` filters and kernel `k` over `c` input channels holds `f·(k·k·c + 1)`
parameters (weights plus biases); batch normalization over `c` channels holds
`4·c` parameters (scale, shift, moving mean, moving variance); a dense layer
from `n` inputs to `u` units holds `n·u + u`.  The other stages hold none. -/
def paramCount : StageCfg → List Nat → Nat
  | StageCfg.conv f k _, _ :: _ :: c :: _ => f * (k*k*c + 1)
  | StageCfg.norm, _ :: _ :: c :: _ => 4*c
  | StageCfg.dense u, n :: _ => n*u + u
  | _, _ => 0

/-- Trainable parameter count of one stage: as `paramCount`, except that of
batch normalization's four per-channel vectors only scale and shift (`2·c`)
are trainable — the summary reports 64 non-trainable parameters, the moving
mean and variance of `bn0`. -/
def trainableParamCount : StageCfg → List Nat → Nat
  | StageCfg.norm, _ :: _ :: c :: _ => 2*c
  | cfg, sh => paramCount cfg sh

/-- Output shape of a whole stage sequence: thread `outShape` through the
stages, failing as soon as one stage is incompatible with the shape produced
by its predecessor. -/
def pipelineOutShape : List StageCfg → List Nat → Option (List Nat)
  | [], sh => some sh
  | cfg :: rest, sh =>
      match outShape cfg sh with
      | none => none
      | some sh' => pipelineOutShape rest sh'

/-- Accumulate a per-stage count along the shape thread of a stage sequence. -/
def countAlong (count : StageCfg → List Nat → Nat) :
    List StageCfg → List Nat → Nat → Option Nat
  | [], _, acc => some acc
  | cfg :: rest, sh, acc =>
      match outShape cfg sh with
      | none => none
      | some sh' => countAlong count rest sh' (acc + count cfg sh)

/-- Total parameter count of a stage sequence on a given input shape. -/
def totalParams (cfgs : List StageCfg) (sh : List Nat) : Option Nat :=
  countAlong paramCount cfgs sh 0

/-- Trainable parameter count of a stage sequence on a given input shape. -/
def trainableParams (cfgs : List StageCfg) (sh : List Nat) : Option Nat :=
  countAlong trainableParamCount cfgs sh 0

/-- The stage sequence of `HappyModel` from the notebook:
`ZeroPadding2D((3,3))`, `Conv2D(32, (7,7), strides=(1,1))`,
`BatchNormalization(axis=3)`, `Activation('relu')`,
`MaxPooling2D((2,2))`, `Flatten()`, `Dense(1, activation='sigmoid')`. -/
def happyStages : List StageCfg :=
  [StageCfg.pad 3, StageCfg.conv 32 7 1, StageCfg.norm, StageCfg.relu,
   StageCfg.maxpool 2, StageCfg.flatten, StageCfg.dense 1]

/-- The input shape of the notebook run: `happyModel = HappyModel((64,64,3))`. -/
def happyInputShape : List Nat := [64, 64, 3]

/-- Gradient-descent update of tutorial 1: `GradientDescentOptimizer(0.01)`
minimising `cost = w² − 10w + 25`; the cost gradient at `w` is `2w − 10`, so
one training step maps `w` to `w − (1/100)·(2w − 10)`. -/
def tf1Step (w : ℚ) : ℚ := w - (1/100) * (2*w - 10)

/-- The cost of tutorial 1, `tf.add(tf.add(w**2, tf.multiply(-10.,w)), 25)`. -/
def tf1Cost (w : ℚ) : ℚ := w^2 - 10*w + 25

/-- Value of `w` in tutorial 1 after `n` runs of `train`, starting from the
initialisation `w = tf.Variable(0)`. -/
def tf1W : Nat → ℚ
  | 0 => 0
  | n + 1 => tf1Step (tf1W n)

/-- The parameterised cost of tutorial 2,
`cost = x[0][0]*w**2 + x[1][0]*w + x[2][0]`. -/
def tf2Cost (a b c w : ℚ) : ℚ := a*w^2 + b*w + c

/-- Gradient-descent update of tutorial 2 with fed coefficients `a`, `b`:
the gradient of `a·w² + b·w + c` at `w` is `2aw + b`, and the learning rate
is again 1/100. -/
def tf2Step (a b w : ℚ) : ℚ := w - (1/100) * (2*a*w + b)

/-- Value of `w` in tutorial 2 after `n` runs of `train` with
`coefficients = np.array([[1.], [-20.], [100]])` fed into the placeholder,
starting from the initialisation `w = 0`. -/
def tf2W : Nat → ℚ
  | 0 => 0
  | n + 1 => tf2Step 1 (-20) (tf2W n)

/-- Modelled from the spec: a Tensor is "an immutable N-dimensional numeric
array with a shape", stored here as a flat row-major list of rationals. -/
structure Tensor where
  shape : List Nat
  data : List ℚ
deriving DecidableEq, Repr

/-- Row-major flat index of position `(i, j, ch)` in a `[h, w, c]` tensor. -/
def idx3 (w c i j ch : Nat) : Nat := (i*w + j)*c + ch

/-- Read position `(i, j, ch)` of a `[h, w, c]` tensor stored flat (0 outside
the buffer). -/
def get3 (d : List ℚ) (w c i j ch : Nat) : ℚ := d.getD (idx3 w c i j ch) 0

/-- Data of zero-padding with margin `p` applied to a `[h, w, c]` tensor. -/
def padData (p h w c : Nat) (d : List ℚ) : List ℚ :=
  (List.range ((h + 2*p) * (w + 2*p) * c)).map (fun idx =>
    let i := idx / ((w + 2*p)*c)
    let r := idx % ((w + 2*p)*c)
    let j := r / c
    let ch := r % c
    if p ≤ i ∧ i < p + h ∧ p ≤ j ∧ j < p + w then get3 d w c (i - p) (j - p) ch else 0)

/-- Data of a valid 2-D convolution with `f` filters, kernel `k`, stride `s`
applied to a `[h, w, c]` tensor; `wt` is the flat `k×k×c×f` weight tensor and
`bias` the per-filter bias vector. -/
def convData (f k s h w c : Nat) (wt bias d : List ℚ) : List ℚ :=
  let ow := (w - k)/s + 1
  (List.range (((h - k)/s + 1) * ow * f)).map (fun idx =>
    let i := idx / (ow*f)
    let r := idx % (ow*f)
    let j := r / f
    let ff := r % f
    (List.range (k*k*c)).foldl (fun acc t =>
      let di := t / (k*c)
      let rt := t % (k*c)
      let dj := rt / c
      let ci := rt % c
      acc + wt.getD (((di*k + dj)*c + ci)*f + ff) 0 * get3 d w c (i*s + di) (j*s + dj) ci)
      (bias.getD ff 0))

/-- Data of channel-wise normalization applied to a `[h, w, c]` tensor: the
inference-time action of batch normalization is affine per channel, with a
scale and a shift vector (the folded form of γ, β and the moving statistics —
the spec leaves the normalization internals to the external framework). -/
def normData (h w c : Nat) (scale shift d : List ℚ) : List ℚ :=
  (List.range (h*w*c)).map (fun idx =>
    scale.getD (idx % c) 0 * d.getD idx 0 + shift.getD (idx % c) 0)

/-- Data of max pooling with window `k` (stride = window) applied to a
`[h, w, c]` tensor. -/
def poolData (k h w c : Nat) (d : List ℚ) : List ℚ :=
  let ow := (w - k)/k + 1
  (List.range (((h - k)/k + 1) * ow * c)).map (fun idx =>
    let i := idx / (ow*c)
    let r := idx % (ow*c)
    let j := r / c
    let ch := r % c
    (List.range (k*k)).foldl (fun m t =>
      max m (get3 d w c (i*k + t/k) (j*k + t % k) ch))
      (get3 d w c (i*k) (j*k) ch))

/-- Data of a dense layer with `u` units applied to a `[n]` tensor; `wt` is
the flat `n×u` weight matrix and `bias` the per-unit bias vector.  The output
is the pre-activation value; the sigmoid of the notebook's final layer is
monotone with sigmoid(0) = 1/2, so thresholding the sigmoid at 1/2 is
thresholding this value at 0 (see `predLabel`). -/
def denseData (u n : Nat) (wt bias d : List ℚ) : List ℚ :=
  (List.range u).map (fun o =>
    (List.range n).foldl (fun acc t => acc + wt.getD (t*u + o) 0 * d.getD t 0)
      (bias.getD o 0))

/-- Modelled from the spec: a Stage has a stage kind with configuration and
trainable parameter tensors (weights, biases) owned by the stage. -/
structure Stage where
  cfg : StageCfg
  weights : List ℚ
  biases : List ℚ
deriving DecidableEq, Repr

/-- Forward data computation of one stage (total; the shape check lives in
`stageForward`). -/
def stageData (st : Stage) (x : Tensor) : List ℚ :=
  match st.cfg, x.shape with
  | StageCfg.pad p, [h, w, c] => padData p h w c x.data
  | StageCfg.conv f k s, [h, w, c] => convData f k s h w c st.weights st.biases x.data
  | StageCfg.norm, [h, w, c] => normData h w c st.weights st.biases x.data
  | StageCfg.relu, _ => x.data.map (fun q => max q 0)
  | StageCfg.maxpool k, [h, w, c] => poolData k h w c x.data
  | StageCfg.flatten, _ => x.data
  | StageCfg.dense u, [n] => denseData u n st.weights st.biases x.data
  | _, _ => []

/-- Modelled from the spec: a stage is "a pure function mapping one tensor
shape/value to another"; it fails (ShapeError) exactly when its configuration
is incompatible with the incoming shape. -/
def stageForward (st : Stage) (x : Tensor) : Option Tensor :=
  match outShape st.cfg x.shape with
  | none => none
  | some sh => some ⟨sh, stageData st x⟩

/-- Modelled from the spec: a Pipeline is an ordered sequence of Stages with
a declared input shape. -/
structure Pipeline where
  inputShape : List Nat
  stages : List Stage
deriving DecidableEq, Repr

/-- Apply the stages in order, propagating the first stage failure. -/
def runStages : List Stage → Tensor → Option Tensor
  | [], x => some x
  | st :: rest, x =>
      match stageForward st x with
      | none => none
      | some y => runStages rest y

/-- Modelled from the spec: `forward(batch) -> Tensor` "applies each stage in
order; side-effect-free; fails with ShapeError if batch rank/shape mismatches
the pipeline's declared input shape".  The model is a pure function: `none`
is the surfaced ShapeError. -/
def forward (p : Pipeline) (x : Tensor) : Option Tensor :=
  if x.shape = p.inputShape then runStages p.stages x else none

/-- Zero/identity-initialised parameters of the right size for one stage on a
given input shape (convolution and dense start at zero, normalization at the
identity affine map); parameter initialisation happens only here, at
pipeline-construction time. -/
def zeroParams (cfg : StageCfg) (sh : List Nat) : List ℚ × List ℚ :=
  match cfg, sh with
  | StageCfg.conv f k _, _ :: _ :: c :: _ => (List.replicate (k*k*c*f) 0, List.replicate f 0)
  | StageCfg.norm, _ :: _ :: c :: _ => (List.replicate c 1, List.replicate c 0)
  | StageCfg.dense u, n :: _ => (List.replicate (n*u) 0, List.replicate u 0)
  | _, _ => ([], [])

/-- The stage built for a configuration at a given input shape. -/
def mkStage (cfg : StageCfg) (sh : List Nat) : Stage :=
  ⟨cfg, (zeroParams cfg sh).1, (zeroParams cfg sh).2⟩

/-- Construct the stage list of a pipeline, threading shapes; fails on the
first stage whose configuration is incompatible with the preceding shape. -/
def buildStages : List StageCfg → List Nat → Option (List Stage)
  | [], _ => some []
  | cfg :: rest, sh =>
      match outShape cfg sh with
      | none => none
      | some sh' => (buildStages rest sh').map (fun sts => mkStage cfg sh :: sts)

/-- Error kinds of the spec: ShapeError (stage input/output shape mismatch)
and DataError (malformed or insufficiently sized dataset/batch). -/
inductive PErr where
  | shapeError
  | dataError
deriving DecidableEq, Repr

/-- Modelled from the spec: `build(input_shape) -> Pipeline` constructs the
stage sequence and "fails with ShapeError if a stage's declared configuration
is incompatible with the preceding stage's output shape". -/
def build (cfgs : List StageCfg) (sh : List Nat) : Except PErr Pipeline :=
  match buildStages cfgs sh with
  | none => Except.error PErr.shapeError
  | some sts => Except.ok ⟨sh, sts⟩

/-! ### Shape-threading lemmas -/

/-- A successful stage application is exactly a successful shape computation,
and the output carries that shape. -/
theorem stageForward_eq_some {st : Stage} {x : Tensor} {sh : List Nat}
    (h : outShape st.cfg x.shape = some sh) :
    stageForward st x = some ⟨sh, stageData st x⟩ := by
  simp [stageForward, h]

/-- The shape of a successful stage output is the configured output shape. -/
theorem stageForward_shape {st : Stage} {x y : Tensor}
    (h : stageForward st x = some y) :
    outShape st.cfg x.shape = some y.shape := by
  unfold stageForward at h
  cases hs : outShape st.cfg x.shape with
  | none => rw [hs] at h; exact absurd h (by simp)
  | some sh =>
      rw [hs] at h
      cases h
      rfl

/-- Output shapes of `runStages` are computed by `pipelineOutShape` on the
stage configurations alone. -/
theorem runStages_shape {sts : List Stage} {x t : Tensor}
    (h : runStages sts x = some t) :
    pipelineOutShape (sts.map Stage.cfg) x.shape = some t.shape := by
  induction sts generalizing x with
  | nil =>
      cases h
      rfl
  | cons st rest ih =>
      unfold runStages at h
      cases hf : stageForward st x with
      | none => rw [hf] at h; exact absurd h (by simp)
      | some y =>
          rw [hf] at h
          have hsh := stageForward_shape hf
          simp only [List.map_cons, pipelineOutShape, hsh]
          exact ih h

/-- If the shape thread succeeds from `x.shape`, running the stages succeeds. -/
theorem runStages_total {sts : List Stage} {x : Tensor}
    (h : (pipelineOutShape (sts.map Stage.cfg) x.shape).isSome) :
    (runStages sts x).isSome := by
  induction sts generalizing x with
  | nil => simp [runStages]
  | cons st rest ih =>
      simp only [List.map_cons, pipelineOutShape] at h
      cases hs : outShape st.cfg x.shape with
      | none => rw [hs] at h; simp at h
      | some sh =>
          rw [hs] at h
          have hf : stageForward st x = some ⟨sh, stageData st x⟩ := stageForward_eq_some hs
          unfold runStages
          rw [hf]
          exact ih (x := ⟨sh, stageData st x⟩) h

/-- `buildStages` keeps exactly the requested configurations. -/
theorem buildStages_cfgs {cfgs : List StageCfg} {sh : List Nat} {sts : List Stage}
    (h : buildStages cfgs sh = some sts) :
    sts.map Stage.cfg = cfgs := by
  induction cfgs generalizing sh sts with
  | nil =>
      cases h
      rfl
  | cons cfg rest ih =>
      unfold buildStages at h
      cases hs : outShape cfg sh with
      | none => rw [hs] at h; exact absurd h (by simp)
      | some sh' =>
          simp only [hs] at h
          cases hb : buildStages rest sh' with
          | none => simp [hb] at h
          | some sts' =>
              simp only [hb, Option.map_some'] at h
              cases h
              simp [mkStage, ih hb]

/-- `buildStages` succeeds exactly when the shape thread succeeds. -/
theorem buildStages_isSome_iff (cfgs : List StageCfg) (sh : List Nat) :
    (buildStages cfgs sh).isSome ↔ (pipelineOutShape cfgs sh).isSome := by
  induction cfgs generalizing sh with
  | nil => simp [buildStages, pipelineOutShape]
  | cons cfg rest ih =>
      unfold buildStages pipelineOutShape
      cases hs : outShape cfg sh with
      | none => simp
      | some sh' => simpa using ih sh'

/-! ### Trainer -/

/-- Modelled from the spec: a Dataset is "a fixed pair of tensors (features,
labels) ... read-only during training"; labels are {0,1}-valued scalars. -/
structure Dataset where
  features : List Tensor
  labels : List ℚ
deriving DecidableEq, Repr

/-- The number of examples of a dataset. -/
def Dataset.size (ds : Dataset) : Nat := ds.features.length

/-- A dataset whose tensors are empty. -/
def Dataset.isEmptyData (ds : Dataset) : Prop :=
  ds.features.length = 0 ∨ ds.labels.length = 0

instance (ds : Dataset) : Decidable ds.isEmptyData := by
  unfold Dataset.isEmptyData
  infer_instance

/-- Modelled from the spec: the external Optimizer collaborator "supplies the
parameter-update rule"; the Trainer hands it the current pipeline and the
batch loss and receives the updated pipeline.  Its internals are out of
scope, so it is an injected function. -/
def Optimizer : Type := Pipeline → ℚ → Pipeline

/-- Scalar output of the pipeline on one example (the single entry of the
final `[1]`-shaped tensor). -/
def exOut (p : Pipeline) (x : Tensor) : Option ℚ :=
  (forward p x).map (fun t => t.data.getD 0 0)

/-- Predicted binary label: the notebook's final layer is dense(1, sigmoid)
and a prediction is the sigmoid output thresholded at 1/2; the sigmoid is
strictly monotone with sigmoid(0) = 1/2, so over the rational model the
thresholded sigmoid of the pre-activation value `z` is 1 iff `0 ≤ z`. -/
def predLabel (z : ℚ) : ℚ := if 0 ≤ z then 1 else 0

/-- Map a fallible function over a list, propagating the first failure. -/
def traverseOpt (f : α → Option β) : List α → Option (List β)
  | [] => some []
  | a :: l =>
      match f a, traverseOpt f l with
      | some b, some bs => some (b :: bs)
      | _, _ => none

/-- Pipeline outputs on every example of a dataset. -/
def predictions (p : Pipeline) (ds : Dataset) : Option (List ℚ) :=
  traverseOpt (exOut p) ds.features

/-- Sum of squared errors of output/label pairs — the scalar training loss of
the model (the spec leaves the framework's loss function external and only
requires a scalar; squared error keeps it rational-valued). -/
def sqLoss (zys : List (ℚ × ℚ)) : ℚ :=
  zys.foldl (fun acc zy => acc + (zy.1 - zy.2)^2) 0

/-- Number of output/label pairs whose thresholded prediction matches the
binary label. -/
def matchCount (zys : List (ℚ × ℚ)) : Nat :=
  zys.countP (fun zy => decide (predLabel zy.1 = zy.2))

/-- Modelled from the spec: `evaluate(dataset) -> (loss, accuracy)` — a
single forward pass over the evaluation set with no parameter mutation;
accuracy is the fraction of predictions whose thresholded sigmoid output
matches the binary label; any forward failure aborts the call and surfaces
as ShapeError. -/
def evaluate (p : Pipeline) (ds : Dataset) : Except PErr (ℚ × ℚ) :=
  match predictions p ds with
  | none => Except.error PErr.shapeError
  | some zs =>
      Except.ok (sqLoss (zs.zip ds.labels) / (ds.size : ℚ),
                 (matchCount (zs.zip ds.labels) : ℚ) / (ds.size : ℚ))

/-- Split a list into ordered, non-overlapping batches of `bs` elements, the
final batch possibly short (fuelled by the list length; `bs = 0` yields no
batches). -/
def chunksAux (bs : Nat) : Nat → List α → List (List α)
  | 0, _ => []
  | _, [] => []
  | fuel + 1, l => l.take bs :: chunksAux bs fuel (l.drop bs)

/-- The batch partition of a list. -/
def chunks (bs : Nat) (l : List α) : List (List α) :=
  if bs = 0 then [] else chunksAux bs l.length l

/-- Loss and accuracy of one batch under the current parameters, `none` when
some example's forward pass fails. -/
def batchStats (p : Pipeline) (b : List (Tensor × ℚ)) : Option (ℚ × ℚ) :=
  (traverseOpt (fun xy => (exOut p xy.1).map (fun z => (z, xy.2))) b).map
    (fun zys => (sqLoss zys / (b.length : ℚ), (matchCount zys : ℚ) / (b.length : ℚ)))

/-- Run the batches of one epoch in order: compute each batch's loss and
accuracy under the current parameters, ask the Optimizer for the update, and
accumulate the loss/accuracy sums. -/
def runBatches (opt : Optimizer) (p : Pipeline) (acc : ℚ × ℚ) :
    List (List (Tensor × ℚ)) → Except PErr (Pipeline × (ℚ × ℚ))
  | [] => Except.ok (p, acc)
  | b :: rest =>
      match batchStats p b with
      | none => Except.error PErr.shapeError
      | some la => runBatches opt (opt p la.1) (acc.1 + la.1, acc.2 + la.2) rest

/-- One training epoch: partition the training set into batches, run them in
order, and report the epoch's mean batch loss and accuracy. -/
def epochStep (opt : Optimizer) (ds : Dataset) (bs : Nat) (p : Pipeline) :
    Except PErr (Pipeline × (ℚ × ℚ)) :=
  let bats := chunks bs (ds.features.zip ds.labels)
  match runBatches opt p (0, 0) bats with
  | Except.error e => Except.error e
  | Except.ok (p', la) =>
      Except.ok (p', (la.1 / (bats.length : ℚ), la.2 / (bats.length : ℚ)))

/-- The epoch loop of `fit`: run `epochs` epochs from the given parameters,
returning the final parameters and the per-epoch loss/accuracy history. -/
def fitLoop (opt : Optimizer) (ds : Dataset) (bs : Nat) :
    Nat → Pipeline → Except PErr (Pipeline × List (ℚ × ℚ))
  | 0, p => Except.ok (p, [])
  | e + 1, p =>
      match epochStep opt ds bs p with
      | Except.error err => Except.error err
      | Except.ok (p', la) =>
          match fitLoop opt ds bs e p' with
          | Except.error err => Except.error err
          | Except.ok (p'', hist) => Except.ok (p'', la :: hist)

/-- Modelled from the spec: `fit(dataset, epochs, batch_size)` — "fails with
DataError if batch_size exceeds dataset size or dataset tensors are empty",
otherwise runs the epochs, each partitioning the training set into ordered
non-overlapping batches and requesting one optimizer update per batch.  The
check is made immediately, before any update; parameters are never
re-initialised here — training continues from the parameters passed in. -/
def fit (opt : Optimizer) (p : Pipeline) (ds : Dataset) (epochs bs : Nat) :
    Except PErr (Pipeline × List (ℚ × ℚ)) :=
  if ds.size < bs ∨ ds.isEmptyData then Except.error PErr.dataError
  else fitLoop opt ds bs epochs p

/-- The observable Trainer operations. -/
inductive TrainOp where
  | fitOp (epochs bs : Nat)
  | evalOp

/-- Modelled from the spec: the Trainer's state is the pipeline (its stages
own the only mutable parameters); a `fit` call replaces the parameters on
success and leaves them unchanged when the call fails, an `evaluate` call
never changes them and returns its (loss, accuracy) result. -/
def runOp (opt : Optimizer) (ds : Dataset) (p : Pipeline) :
    TrainOp → Pipeline × Option (Except PErr (ℚ × ℚ))
  | TrainOp.fitOp e bs =>
      match fit opt p ds e bs with
      | Except.ok (p', _) => (p', none)
      | Except.error _ => (p, none)
  | TrainOp.evalOp => (p, some (evaluate p ds))

/-! ### Trainer lemmas -/

/-- A successful traversal preserves the list length. -/
theorem traverseOpt_length {f : α → Option β} {l : List α} {ys : List β}
    (h : traverseOpt f l = some ys) : ys.length = l.length := by
  induction l generalizing ys with
  | nil =>
      cases h
      rfl
  | cons a rest ih =>
      unfold traverseOpt at h
      cases hf : f a with
      | none => rw [hf] at h; exact absurd h (by simp)
      | some b =>
          cases hr : traverseOpt f rest with
          | none => rw [hf, hr] at h; exact absurd h (by simp)
          | some bs =>
              rw [hf, hr] at h
              cases h
              simp [ih hr]

/-- The squared-error sum is nonnegative from any nonnegative start. -/
theorem sqLoss_foldl_nonneg (zys : List (ℚ × ℚ)) (acc : ℚ) (h : 0 ≤ acc) :
    0 ≤ zys.foldl (fun acc zy => acc + (zy.1 - zy.2)^2) acc := by
  induction zys generalizing acc with
  | nil => simpa using h
  | cons zy rest ih => exact ih _ (add_nonneg h (sq_nonneg _))

/-- The squared-error loss is nonnegative. -/
theorem sqLoss_nonneg (zys : List (ℚ × ℚ)) : 0 ≤ sqLoss zys :=
  sqLoss_foldl_nonneg zys 0 le_rfl

/-- The only error `runBatches` returns is ShapeError. -/
theorem runBatches_error_shape {opt : Optimizer} {p : Pipeline} {acc : ℚ × ℚ}
    {bats : List (List (Tensor × ℚ))} {err : PErr}
    (h : runBatches opt p acc bats = Except.error err) : err = PErr.shapeError := by
  induction bats generalizing p acc with
  | nil => exact absurd h (by simp [runBatches])
  | cons b rest ih =>
      unfold runBatches at h
      cases hb : batchStats p b with
      | none =>
          simp only [hb] at h
          exact (Except.error.injEq .. ▸ h :).symm
      | some la =>
          simp only [hb] at h
          exact ih h

/-- The only error `epochStep` returns is ShapeError. -/
theorem epochStep_error_shape {opt : Optimizer} {ds : Dataset} {bs : Nat}
    {p : Pipeline} {err : PErr}
    (h : epochStep opt ds bs p = Except.error err) : err = PErr.shapeError := by
  unfold epochStep at h
  cases hr : runBatches opt p (0, 0) (chunks bs (ds.features.zip ds.labels)) with
  | error e =>
      simp only [hr] at h
      cases h
      exact runBatches_error_shape hr
  | ok pla =>
      obtain ⟨p', la⟩ := pla
      simp only [hr] at h
      exact absurd h (by simp)

/-- The only error `fitLoop` returns is ShapeError. -/
theorem fitLoop_error_shape {opt : Optimizer} {ds : Dataset} {bs e : Nat}
    {p : Pipeline} {err : PErr}
    (h : fitLoop opt ds bs e p = Except.error err) : err = PErr.shapeError := by
  induction e generalizing p with
  | zero => exact absurd h (by simp [fitLoop])
  | succ e ih =>
      unfold fitLoop at h
      cases he : epochStep opt ds bs p with
      | error e' =>
          simp only [he] at h
          cases h
          exact epochStep_error_shape he
      | ok pla =>
          obtain ⟨p', la⟩ := pla
          simp only [he] at h
          cases hf : fitLoop opt ds bs e p' with
          | error err' =>
              simp only [hf] at h
              cases h
              exact ih hf
          | ok ph =>
              obtain ⟨p'', hist⟩ := ph
              simp only [hf] at h
              exact absurd h (by simp)

/-- Running `e1` epochs and then `e2` more from the resulting parameters is
one `e1 + e2`-epoch run, with the histories concatenated. -/
theorem fitLoop_add (opt : Optimizer) (ds : Dataset) (bs e1 e2 : Nat) :
    ∀ p p1 p2 h1 h2,
      fitLoop opt ds bs e1 p = Except.ok (p1, h1) →
      fitLoop opt ds bs e2 p1 = Except.ok (p2, h2) →
      fitLoop opt ds bs (e1 + e2) p = Except.ok (p2, h1 ++ h2) := by
  induction e1 with
  | zero =>
      intro p p1 p2 h1 h2 ha hb
      simp only [fitLoop, Except.ok.injEq, Prod.mk.injEq] at ha
      obtain ⟨rfl, rfl⟩ := ha
      simpa using hb
  | succ e ih =>
      intro p p1 p2 h1 h2 ha hb
      unfold fitLoop at ha
      cases he : epochStep opt ds bs p with
      | error e' => simp [he] at ha
      | ok pla =>
          obtain ⟨p', la⟩ := pla
          simp only [he] at ha
          cases hf : fitLoop opt ds bs e p' with
          | error err' => simp [hf] at ha
          | ok ph =>
              obtain ⟨p'', hist⟩ := ph
              simp only [hf, Except.ok.injEq, Prod.mk.injEq] at ha
              obtain ⟨rfl, rfl⟩ := ha
              rw [Nat.succ_add]
              unfold fitLoop
              simp only [he]
              rw [ih p' p'' p2 hist h2 hf hb]
              rfl

/-! ### Concrete fixtures used by witnesses -/

/-- A two-stage configuration (flatten then dense(1)) used as a small concrete
instance of the pipeline model. -/
def tinyCfgs : List StageCfg := [StageCfg.flatten, StageCfg.dense 1]

/-- The pipeline `build tinyCfgs [1,1,1]` produces. -/
def tinyPipe : Pipeline :=
  ⟨[1, 1, 1], [⟨StageCfg.flatten, [], []⟩, ⟨StageCfg.dense 1, [0], [0]⟩]⟩

/-- A conforming input example for `tinyPipe`. -/
def tinyX : Tensor := ⟨[1, 1, 1], [1]⟩

/-- A non-conforming input (its shape has rank 1, not the declared [1,1,1]). -/
def badX : Tensor := ⟨[1], [1]⟩

/-- The identity optimizer, a concrete instance of the external collaborator. -/
def idOpt : Optimizer := fun p _ => p

/-- A dataset with empty tensors. -/
def emptyDs : Dataset := ⟨[], []⟩

/-- A one-example dataset conforming to `tinyPipe`, with binary label 1. -/
def oneExDs : Dataset := ⟨[tinyX], [1]⟩

/-! ## C3: ShapeError behaviour of build and forward -/

/-- C3: `build` fails (with ShapeError, the only error it returns) exactly
when some stage's configuration is incompatible with the preceding stage's
output shape, i.e. when the shape thread `pipelineOutShape` breaks; and on a
successfully built pipeline `forward` fails exactly when the input's shape
differs from the declared input shape — so for every compatible configuration
and conforming input neither call fails. -/
theorem build_forward_shape_errors (cfgs : List StageCfg) (sh : List Nat) :
    ((∃ p, build cfgs sh = Except.ok p) ↔ (pipelineOutShape cfgs sh).isSome)
    ∧ ∀ p x, build cfgs sh = Except.ok p →
        ((forward p x).isNone ↔ x.shape ≠ sh) := by
  constructor
  · rw [← buildStages_isSome_iff]
    unfold build
    cases hb : buildStages cfgs sh with
    | none => simp
    | some sts => simp
  · intro p x hp
    unfold build at hp
    cases hb : buildStages cfgs sh with
    | none => rw [hb] at hp; exact absurd hp (by simp)
    | some sts =>
        rw [hb] at hp
        cases hp
        unfold forward
        by_cases hx : x.shape = sh
        · have hsome : (runStages sts x).isSome := by
            apply runStages_total
            rw [buildStages_cfgs hb, hx, ← buildStages_isSome_iff, hb]
            rfl
          simp only [hx]
          simp [Option.isNone_iff_eq_none, hx, Option.isSome_iff_ne_none.mp hsome]
        · simp [hx]

/-- Witness for C3 at a concrete configuration: `tinyCfgs` on input shape
[1,1,1] builds `tinyPipe`; on the built pipeline, `forward` does not fail on
the conforming `tinyX` and does fail on the non-conforming `badX`. -/
theorem build_forward_shape_errors_witness :
    build tinyCfgs [1, 1, 1] = Except.ok tinyPipe
    ∧ ¬(forward tinyPipe tinyX).isNone
    ∧ (forward tinyPipe badX).isNone := by
  have hb : build tinyCfgs [1, 1, 1] = Except.ok tinyPipe := by decide
  refine ⟨hb, ?_, ?_⟩
  · intro hnone
    have := ((build_forward_shape_errors tinyCfgs [1, 1, 1]).2 tinyPipe tinyX hb).mp hnone
    exact this (by decide)
  · exact ((build_forward_shape_errors tinyCfgs [1, 1, 1]).2 tinyPipe badX hb).mpr (by decide)

/-! ## C6: determinism of forward -/

/-- C6: `forward` is deterministic and side-effect-free: it is a pure
function of the pipeline (stage parameters included) and the input tensor,
so two calls with identical stage parameters and identical inputs return
identical outputs; in particular the output shape is determined — it is
computed by `pipelineOutShape` from the stage configurations alone. -/
theorem forward_deterministic (p q : Pipeline) (x y : Tensor)
    (hpq : p = q) (hxy : x = y) :
    forward p x = forward q y
    ∧ ∀ t, forward p x = some t →
        pipelineOutShape (p.stages.map Stage.cfg) x.shape = some t.shape := by
  subst hpq
  subst hxy
  refine ⟨rfl, ?_⟩
  intro t ht
  unfold forward at ht
  by_cases hx : x.shape = p.inputShape
  · rw [if_pos hx] at ht
    exact runStages_shape ht
  · rw [if_neg hx] at ht
    exact absurd ht (by simp)

/-- Witness for C6 at a concrete pipeline and input: two identical forward
calls on `tinyPipe` and `tinyX` agree, and the concrete output shape [1] is
the one `pipelineOutShape` computes from the configurations. -/
theorem forward_deterministic_witness :
    forward tinyPipe tinyX = forward tinyPipe tinyX
    ∧ pipelineOutShape (tinyPipe.stages.map Stage.cfg) tinyX.shape = some [1] := by
  have h := forward_deterministic tinyPipe tinyPipe tinyX tinyX rfl rfl
  refine ⟨h.1, ?_⟩
  have heval : forward tinyPipe tinyX = some ⟨[1], [0]⟩ := by
    simp [forward, tinyPipe, tinyX, runStages, stageForward, outShape, stageData,
      denseData, List.range_succ]
  simpa using h.2 ⟨[1], [0]⟩ heval

/-! ## C2: DataError behaviour of fit -/

/-- C2: for every dataset and batch size, `fit` returns DataError if and only
if the batch size exceeds the dataset size or the dataset tensors are empty
(every other failure is a ShapeError); and whenever `fit` fails, no parameter
update happens — the Trainer's pipeline state after the failed call is
exactly the pipeline passed in, and the error surfaces to the caller. -/
theorem fit_dataError_iff (opt : Optimizer) (p : Pipeline) (ds : Dataset) (e bs : Nat) :
    (fit opt p ds e bs = Except.error PErr.dataError ↔ (ds.size < bs ∨ ds.isEmptyData))
    ∧ ∀ err, fit opt p ds e bs = Except.error err →
        (runOp opt ds p (TrainOp.fitOp e bs)).1 = p := by
  constructor
  · unfold fit
    by_cases hc : ds.size < bs ∨ ds.isEmptyData
    · simp [hc]
    · simp only [if_neg hc]
      constructor
      · intro h
        exact absurd (fitLoop_error_shape h) (by decide)
      · intro h
        exact absurd h hc
  · intro err h
    simp only [runOp, h]

/-- Witness for C2: on the one-example dataset with batch size 2 the call
fails with DataError (2 exceeds the dataset size 1) and leaves the pipeline
state unchanged. -/
theorem fit_dataError_iff_witness :
    fit idOpt tinyPipe oneExDs 1 2 = Except.error PErr.dataError
    ∧ (runOp idOpt oneExDs tinyPipe (TrainOp.fitOp 1 2)).1 = tinyPipe := by
  have h := fit_dataError_iff idOpt tinyPipe oneExDs 1 2
  have he : fit idOpt tinyPipe oneExDs 1 2 = Except.error PErr.dataError :=
    h.1.mpr (Or.inl (by decide))
  exact ⟨he, h.2 PErr.dataError he⟩

/-! ## C4: evaluate mutates nothing and is idempotent -/

/-- C4: `evaluate` performs no parameter mutation — the Trainer state after an
`evaluate` call is the pipeline it started with — and two consecutive
`evaluate` calls on the same dataset with no intervening `fit` (the second
call running on the state the first one left) return identical results. -/
theorem evaluate_idempotent (opt : Optimizer) (ds : Dataset) (p : Pipeline) :
    (runOp opt ds p TrainOp.evalOp).1 = p
    ∧ (runOp opt ds p TrainOp.evalOp).2
        = (runOp opt ds ((runOp opt ds p TrainOp.evalOp).1) TrainOp.evalOp).2 := by
  exact ⟨rfl, rfl⟩

/-! ## C5: fit with zero epochs -/

/-- C5 counterexample: `fit` with `epochs = 0` does not return an empty
training history for every dataset and batch size — on empty dataset tensors
the validity check fires first and the call fails with DataError, returning
no TrainingState at all. -/
theorem fit_zero_epochs_dataError :
    fit idOpt tinyPipe emptyDs 0 1 = Except.error PErr.dataError := by
  unfold fit
  rw [if_pos (Or.inr (by decide))]

/-- C5 (amended): for every dataset and batch size that pass `fit`'s
validity check (batch size at most the dataset size and nonempty dataset
tensors), `fit` with `epochs = 0` leaves every stage's parameters exactly as
they were — it returns the very pipeline passed in — together with the empty
loss/accuracy history. -/
theorem fit_zero_epochs (opt : Optimizer) (p : Pipeline) (ds : Dataset) (bs : Nat)
    (h : ¬(ds.size < bs ∨ ds.isEmptyData)) :
    fit opt p ds 0 bs = Except.ok (p, []) := by
  unfold fit
  rw [if_neg h]
  rfl

/-- Witness for C5 at a concrete dataset: the one-example dataset with batch
size 1 is valid, and the zero-epoch fit returns the unchanged pipeline and
the empty history. -/
theorem fit_zero_epochs_witness :
    ¬(oneExDs.size < 1 ∨ oneExDs.isEmptyData)
    ∧ fit idOpt tinyPipe oneExDs 0 1 = Except.ok (tinyPipe, []) :=
  ⟨by decide, fit_zero_epochs idOpt tinyPipe oneExDs 1 (by decide)⟩

/-! ## C7: bounds and meaning of evaluate's result -/

/-- C7: whenever `evaluate` returns a (loss, accuracy) pair — in particular
on any dataset evaluated in a single pass over the whole set — the loss is
nonnegative, the accuracy lies in [0,1], and the accuracy is exactly the
number of examples whose thresholded sigmoid output matches the binary label
divided by the dataset size. -/
theorem evaluate_bounds (p : Pipeline) (ds : Dataset) (l a : ℚ)
    (h : evaluate p ds = Except.ok (l, a)) :
    0 ≤ l ∧ 0 ≤ a ∧ a ≤ 1
    ∧ ∀ zs, predictions p ds = some zs →
        a = (matchCount (zs.zip ds.labels) : ℚ) / (ds.size : ℚ) := by
  unfold evaluate at h
  cases hp : predictions p ds with
  | none => rw [hp] at h; exact absurd h (by simp)
  | some zs =>
      rw [hp] at h
      rw [Except.ok.injEq, Prod.mk.injEq] at h
      obtain ⟨hl, ha⟩ := h
      subst hl
      subst ha
      refine ⟨?_, ?_, ?_, ?_⟩
      · exact div_nonneg (sqLoss_nonneg _) (Nat.cast_nonneg _)
      · exact div_nonneg (Nat.cast_nonneg _) (Nat.cast_nonneg _)
      · by_cases hsz : ds.size = 0
        · simp [hsz]
        · have hszpos : (0:ℚ) < (ds.size : ℚ) := by
            exact_mod_cast Nat.pos_of_ne_zero hsz
          rw [div_le_one hszpos]
          have hcount : matchCount (zs.zip ds.labels) ≤ ds.size := by
            calc matchCount (zs.zip ds.labels) ≤ (zs.zip ds.labels).length :=
                  List.countP_le_length _
            _ ≤ zs.length := by
                  rw [List.length_zip]
                  exact Nat.min_le_left _ _
            _ = ds.size := traverseOpt_length hp
          exact_mod_cast hcount
      · intro zs' hzs'
        cases hzs'
        rfl

/-- Witness for C7: on the one-example dataset, `evaluate` of the tiny
pipeline returns loss 1 and accuracy 1, and the bounds hold there. -/
theorem evaluate_bounds_witness :
    evaluate tinyPipe oneExDs = Except.ok (1, 1)
    ∧ 0 ≤ (1:ℚ) ∧ 0 ≤ (1:ℚ) ∧ (1:ℚ) ≤ 1 := by
  have he : evaluate tinyPipe oneExDs = Except.ok (1, 1) := by
    norm_num [evaluate, predictions, traverseOpt, exOut, forward, tinyPipe, tinyX, oneExDs,
      runStages, stageForward, outShape, stageData, denseData, List.range_succ,
      sqLoss, matchCount, predLabel, Dataset.size]
  have h := evaluate_bounds tinyPipe oneExDs 1 1 he
  exact ⟨he, h.1, h.2.1, h.2.2.1⟩

/-! ## C10: fit is cumulative -/

/-- C10: `fit` is cumulative: parameters are initialised only when the
pipeline is constructed, never inside `fit`, so a second `fit` call starting
from the parameters the first call produced continues their training — the
two runs together are exactly one run over the summed epochs, histories
concatenated. -/
theorem fit_cumulative (opt : Optimizer) (p p1 p2 : Pipeline) (ds : Dataset)
    (bs e1 e2 : Nat) (h1 h2 : List (ℚ × ℚ))
    (ha : fit opt p ds e1 bs = Except.ok (p1, h1))
    (hb : fit opt p1 ds e2 bs = Except.ok (p2, h2)) :
    fit opt p ds (e1 + e2) bs = Except.ok (p2, h1 ++ h2) := by
  unfold fit at ha hb ⊢
  by_cases hc : ds.size < bs ∨ ds.isEmptyData
  · rw [if_pos hc] at ha
    exact absurd ha (by simp)
  · rw [if_neg hc] at ha hb ⊢
    exact fitLoop_add opt ds bs e1 e2 p p1 p2 h1 h2 ha hb

/-- Witness for C10: on the one-example dataset with batch size 1, one epoch
of `fit` with the identity optimizer returns the pipeline with history
[(1,1)], and running one epoch twice equals the two-epoch run. -/
theorem fit_cumulative_witness :
    fit idOpt tinyPipe oneExDs 1 1 = Except.ok (tinyPipe, [(1, 1)])
    ∧ fit idOpt tinyPipe oneExDs 2 1 = Except.ok (tinyPipe, [(1, 1), (1, 1)]) := by
  have h1 : fit idOpt tinyPipe oneExDs 1 1 = Except.ok (tinyPipe, [(1, 1)]) := by
    norm_num [fit, fitLoop, epochStep, chunks, chunksAux, runBatches, batchStats,
      traverseOpt, exOut, forward, tinyPipe, tinyX, oneExDs, runStages, stageForward,
      outShape, stageData, denseData, List.range_succ, sqLoss, matchCount, predLabel,
      idOpt, Dataset.size, Dataset.isEmptyData]
  refine ⟨h1, ?_⟩
  have h2 := fit_cumulative idOpt tinyPipe tinyPipe tinyPipe oneExDs 1 1 1
    [(1, 1)] [(1, 1)] h1 h1
  simpa using h2

/-! ## C1: shape and parameter count of HappyModel -/

/-- C1 (amended): on input shape (64,64,3) the HappyModel stage sequence
yields output shape (1,), and its total parameter count equals
32·(7·7·3+1) + 4·32 + (32·32·32·1+1) = 37,633 — batch normalization holds
4·32 parameters in total, of which the 2·32 named by the original formula are
the trainable ones, giving the trainable count 37,569. -/
theorem happy_shape_and_params :
    pipelineOutShape happyStages happyInputShape = some [1]
    ∧ totalParams happyStages happyInputShape = some (32*(7*7*3+1) + 4*32 + (32*32*32*1+1))
    ∧ totalParams happyStages happyInputShape = some 37633
    ∧ trainableParams happyStages happyInputShape = some (32*(7*7*3+1) + 2*32 + (32*32*32*1+1))
    ∧ trainableParams happyStages happyInputShape = some 37569 := by
  refine ⟨by decide, by decide, by decide, by decide, by decide⟩

/-- C1 counterexample: the claimed formula 32·(7·7·3+1) + 2·32 + (32·32·32·1+1)
evaluates to 37,569, not 37,633, so the model's total parameter count (37,633,
as the notebook's `summary()` records) is not equal to it; the formula counts
only the trainable parameters. -/
theorem happy_params_formula_false :
    totalParams happyStages happyInputShape = some 37633
    ∧ 32*(7*7*3+1) + 2*32 + (32*32*32*1+1) = 37569
    ∧ totalParams happyStages happyInputShape ≠ some (32*(7*7*3+1) + 2*32 + (32*32*32*1+1)) := by
  refine ⟨by decide, by decide, by decide⟩

/-! ## C8: tutorial 1, initial value and one exact step -/

/-- C8: in tutorial 1's gradient-descent program on J(w) = w² − 10w + 25 with
learning rate 1/100, `w` evaluates to 0 immediately after initialisation, and
after exactly one update step `w ← w − (1/100)·(2w − 10)` its exact rational
value is 1/10.  (The cost is indeed (w−5)², as the notebook notes.) -/
theorem tf1_zero_then_one_step :
    tf1W 0 = 0 ∧ tf1W 1 = 1/10 ∧ ∀ w : ℚ, tf1Cost w = (w - 5)^2 := by
  refine ⟨rfl, by norm_num [tf1W, tf1Step], fun w => by unfold tf1Cost; ring⟩

/-! ## C9: tutorial 2, fixed point and convergence -/

/-- Closed form of tutorial 2's iteration with coefficients a = 1, b = −20:
each step is an affine contraction `w ↦ (49/50)·w + 1/5`, so starting from 0
the value after `n` steps is `10 − 10·(49/50)ⁿ`. -/
theorem tf2W_closed (n : Nat) : tf2W n = 10 - 10 * ((49:ℚ)/50)^n := by
  induction n with
  | zero => norm_num [tf2W]
  | succ n ih =>
      show tf2Step 1 (-20) (tf2W n) = _
      rw [ih]; unfold tf2Step; ring

/-- The contraction factor bound used for C9:
(49/50)^1001 < 1/10000 over the rationals. -/
theorem tf2_pow_small : ((49:ℚ)/50)^1001 < 1/10000 := by
  have h35 : ((49:ℚ)/50)^35 < 1/2 := by norm_num
  have h490 : ((49:ℚ)/50)^490 < 1/10000 := by
    calc ((49:ℚ)/50)^490 = (((49:ℚ)/50)^35)^14 := by rw [← pow_mul]
    _ < (1/2:ℚ)^14 := pow_lt_pow_left₀ h35 (by positivity) (by norm_num)
    _ < 1/10000 := by norm_num
  calc ((49:ℚ)/50)^1001 ≤ ((49:ℚ)/50)^490 :=
        pow_le_pow_of_le_one (by norm_num) (by norm_num) (by norm_num)
  _ < 1/10000 := h490

/-- C9: in tutorial 2's parameterised gradient-descent program with fed
coefficients a = 1, b = −20, c = 100 and learning rate 1/100, the update
`w ← w − (1/100)·(2aw + b)` has 10 as its unique fixed point, and starting
from w = 0 the value after 1001 iterations (the notebook runs one step and
then 1000 more) lies within 10⁻³ of 10. -/
theorem tf2_fixed_point_and_convergence :
    (∀ w : ℚ, tf2Step 1 (-20) w = w ↔ w = 10)
    ∧ |tf2W 1001 - 10| < 1/1000 := by
  constructor
  · intro w
    unfold tf2Step
    constructor
    · intro h; linarith
    · intro h; rw [h]; ring
  · have hpow : (0:ℚ) < ((49:ℚ)/50)^1001 := by positivity
    have hbound := tf2_pow_small
    rw [tf2W_closed]
    rw [show (10:ℚ) - 10 * ((49:ℚ)/50)^1001 - 10 = -(10 * ((49:ℚ)/50)^1001) by ring]
    rw [abs_neg, abs_of_pos (by positivity)]
    linarith

end DLSpec
